import Mathlib

/-!
Verification of the build-orchestration logic of the Cardano python signing
module (`setup.py`): the compiler capability probe, prerequisite checking,
platform-dependent artifact naming, the custom build-extension pipeline and
the SWIG binding generator.

Shallow embedding conventions:
* Subprocess invocations are modelled by their observable outcome: either the
  process completed with an integer return code (`Subp.ret rc`) or the bounded
  wait expired (`Subp.timeout`).  The probe functions in `setup.py` invoke
  `subprocess.run` without `check=True`, so these are the only outcomes that
  reach the surrounding control flow.
* The content written into each temporary probe file is irrelevant to the
  control flow; a `tempfile.NamedTemporaryFile(delete=False)` is modelled by a
  fixed symbolic path per call site, and filesystem effects are recorded as an
  ordered trace of `FsEv` events (`create` when the temp file is written,
  `unlink` when `os.unlink` is reached on the executed path).
* Output of external commands (version strings, regex extraction from
  `--version` stdout) is environment data and is supplied by the environment
  structures; no claim depends on the parsing itself beyond which branch it
  selects, which is what the environment fields encode.
-/

/-- Outcome of a `subprocess.run` call that is bounded by a timeout and does
not use `check=True`: the process either returned with an exit code or the
timeout expired (raising `subprocess.TimeoutExpired`). -/
inductive Subp where
  | ret (rc : Int)
  | timeout
deriving DecidableEq, Repr

/-- Filesystem events performed by the capability tests: creation of a
temporary source file and an `os.unlink` call that is reached. -/
inductive FsEv where
  | create (path : String)
  | unlink (path : String)
deriving DecidableEq, Repr

/-- Symbolic path of the temporary source file written by
`test_cpp11_compilation` (a fresh `NamedTemporaryFile` in the source). -/
def cpp11SourceFile : String := "cpp11_probe_source.cpp"

/-- Environment of one `test_cpp11_compilation` call: the outcome of the
compile subprocess and of the run of the produced test binary. -/
structure Cpp11Env where
  compile : Subp
  run : Subp
deriving DecidableEq, Repr

/-- Embedding of `test_cpp11_compilation` (setup.py lines 231-320).
Writes a temp source file; compiles it (timeout 30); on exit code 0 runs the
produced binary (timeout 10), unlinks the binary after the run completes, and
returns whether the run exited 0.  A compile failure, a compile timeout, a run
timeout (caught by the `except` clause) all return `False`.  The temp source
file is unlinked in the `finally` block on every path.  The second component
is the trace of filesystem events. -/
def test_cpp11_compilation (ctype : String) (e : Cpp11Env) : Bool × List FsEv :=
  let exe := if ctype == "msvc" then "test_cpp11.exe" else "test_cpp11"
  match e.compile with
  | .ret rc =>
    if rc == 0 then
      match e.run with
      | .ret rc2 => (rc2 == 0, [.create cpp11SourceFile, .unlink exe, .unlink cpp11SourceFile])
      | .timeout => (false, [.create cpp11SourceFile, .unlink cpp11SourceFile])
    else (false, [.create cpp11SourceFile, .unlink cpp11SourceFile])
  | .timeout => (false, [.create cpp11SourceFile, .unlink cpp11SourceFile])

/-- Symbolic path of the header-test temp source file in
`test_compiler_features`. -/
def headerSourceFile : String := "header_probe_source.cpp"

/-- Symbolic path of the bridge-test temp source file in
`test_compiler_features`. -/
def bridgeSourceFile : String := "bridge_probe_source.cpp"

/-- Symbolic path of the threading-test temp source file in
`test_compiler_features`. -/
def threadSourceFile : String := "thread_probe_source.cpp"

/-- Embedding of the position-independent-code block of
`test_compiler_features` (lines 328-336): only for the gcc and clang families;
a non-zero exit of `cc -fPIC --help` appends one warning, a timeout (caught by
the `except` clause) appends a different warning. -/
def picStep (ctype : String) (s : Subp) : List String :=
  if ctype == "gcc" || ctype == "clang" then
    match s with
    | .ret rc => if rc != 0 then ["Position Independent Code (-fPIC) support uncertain"] else []
    | .timeout => ["Could not verify -fPIC support"]
  else []

/-- Embedding of the standard-library/header block of `test_compiler_features`
(lines 339-378).  Returns `(warnings, critical_failures, events)`.  A non-zero
compile exit appends a critical failure and a warning; a timeout only appends
a warning (and skips the executable cleanup, which sits inside the `try`).
The temp source file is unlinked in the `finally` block on every path. -/
def headerStep (ctype : String) (s : Subp) : List String × List String × List FsEv :=
  let exe := if ctype == "msvc" then "test_headers.exe" else "test_headers"
  match s with
  | .ret rc =>
    if rc != 0 then
      (["Standard library headers may be missing or incompatible"],
       ["Cannot compile basic C++ headers"],
       [.create headerSourceFile, .unlink exe, .unlink headerSourceFile])
    else
      ([], [], [.create headerSourceFile, .unlink exe, .unlink headerSourceFile])
  | .timeout =>
    (["Could not verify standard library availability"], [],
     [.create headerSourceFile, .unlink headerSourceFile])

/-- Embedding of the known-problematic-version block of
`test_compiler_features` (lines 380-413).  `probe` is the outcome of
`cc --version`; `parsed` is the result of the regex extraction of a
`major.minor.patch` triple from its stdout (environment data).  Old gcc
(below 4.7) or clang (below 3.3) versions append one warning; every other
outcome appends nothing. -/
def versionStep (ctype : String) (probe : Subp) (parsed : Option (Nat × Nat × Nat)) : List String :=
  if ctype == "gcc" then
    match probe, parsed with
    | .ret 0, some (mj, mn, pt) =>
      if mj < 4 ∨ (mj = 4 ∧ mn < 7) then
        [s!"GCC {mj}.{mn}.{pt} is quite old, consider upgrading"]
      else []
    | _, _ => []
  else if ctype == "clang" then
    match probe, parsed with
    | .ret 0, some (mj, mn, pt) =>
      if mj < 3 ∨ (mj = 3 ∧ mn < 3) then
        [s!"Clang {mj}.{mn}.{pt} may not fully support C++11"]
      else []
    | _, _ => []
  else []

/-- Embedding of the Rust-C++ bridge block of `test_compiler_features`
(lines 415-503).  A compile timeout warns and skips the executable cleanup; a
non-zero compile warns; on compile success the binary is run, where a non-zero
exit or a run timeout each append a warning.  No branch touches
`critical_failures`.  The temp source file is unlinked in `finally` on every
path. -/
def bridgeStep (ctype : String) (c r : Subp) : List String × List FsEv :=
  let exe := if ctype == "msvc" then "test_bridge.exe" else "test_bridge"
  match c with
  | .timeout =>
    (["Could not verify Rust-C++ bridge compatibility"],
     [.create bridgeSourceFile, .unlink bridgeSourceFile])
  | .ret rc =>
    if rc != 0 then
      (["May have issues with Rust-C++ bridge features"],
       [.create bridgeSourceFile, .unlink exe, .unlink bridgeSourceFile])
    else
      match r with
      | .ret rc2 =>
        (if rc2 != 0 then ["Rust-C++ bridge compatibility test failed at runtime"] else [],
         [.create bridgeSourceFile, .unlink exe, .unlink bridgeSourceFile])
      | .timeout =>
        (["Could not verify Rust-C++ bridge runtime compatibility"],
         [.create bridgeSourceFile, .unlink exe, .unlink bridgeSourceFile])

/-- Embedding of the threading block of `test_compiler_features`
(lines 505-549): gcc and clang families only.  A non-zero compile or a compile
timeout each append one warning; on success the produced binary is unlinked.
The temp source file is unlinked in `finally` on every path. -/
def threadStep (ctype : String) (s : Subp) : List String × List FsEv :=
  if ctype == "gcc" || ctype == "clang" then
    match s with
    | .ret rc =>
      if rc != 0 then
        (["Threading support may be limited (missing -pthread or thread library)"],
         [.create threadSourceFile, .unlink threadSourceFile])
      else
        ([], [.create threadSourceFile, .unlink "test_threading", .unlink threadSourceFile])
    | .timeout =>
      (["Could not verify threading support"],
       [.create threadSourceFile, .unlink threadSourceFile])
  else ([], [])

/-- The dictionary returned by `test_compiler_features`: ordered warnings and
ordered critical failures. -/
structure FeatResult where
  warnings : List String
  critical_failures : List String
deriving DecidableEq, Repr

/-- Environment of one `test_compiler_features` call: the outcome of each
subprocess it may spawn, plus the parsed version triple of the `--version`
output (regex result, environment data). -/
structure FeatEnv where
  pic : Subp
  headerCompile : Subp
  versionProbe : Subp
  versionParse : Option (Nat × Nat × Nat)
  bridgeCompile : Subp
  bridgeRun : Subp
  threadCompile : Subp
deriving DecidableEq, Repr

/-- Embedding of `test_compiler_features` (setup.py lines 323-554): runs the
five blocks in source order and accumulates their warnings in that order;
only the header block ever appends to `critical_failures`.  The second
component is the concatenated trace of filesystem events of the blocks that
create temp files (header, bridge, threading). -/
def test_compiler_features (ctype : String) (e : FeatEnv) : FeatResult × List FsEv :=
  ({ warnings :=
      picStep ctype e.pic
        ++ (headerStep ctype e.headerCompile).1
        ++ versionStep ctype e.versionProbe e.versionParse
        ++ (bridgeStep ctype e.bridgeCompile e.bridgeRun).1
        ++ (threadStep ctype e.threadCompile).1,
     critical_failures := (headerStep ctype e.headerCompile).2.1 },
   (headerStep ctype e.headerCompile).2.2
     ++ (bridgeStep ctype e.bridgeCompile e.bridgeRun).2
     ++ (threadStep ctype e.threadCompile).2)

/-- One entry of the `compilers_to_test` list in `check_cpp_compiler`. -/
structure CompilerInfo where
  cmd : String
  name : String
  type : String
deriving DecidableEq, Repr

/-- The fixed ordered candidate list of `check_cpp_compiler`
(setup.py lines 136-156). -/
def compilers_to_test : List CompilerInfo :=
  [⟨"g++", "GNU G++", "gcc"⟩,
   ⟨"gcc", "GNU GCC", "gcc"⟩,
   ⟨"clang++", "Clang++", "clang"⟩,
   ⟨"clang", "Clang", "clang"⟩,
   ⟨"cl", "Microsoft Visual C++", "msvc"⟩,
   ⟨"cl.exe", "Microsoft Visual C++", "msvc"⟩,
   ⟨"icpc", "Intel C++ Compiler", "intel"⟩,
   ⟨"icc", "Intel C Compiler", "intel"⟩,
   ⟨"cc", "System C Compiler", "generic"⟩,
   ⟨"c++", "System C++ Compiler", "generic"⟩]

/-- Per-candidate probe data: whether probing this command raises an
exception that escapes to the `except Exception` handler of the loop, the
version string returned by `get_compiler_version`, and the environments of the
two capability test calls. -/
structure CandData where
  raises : Bool
  version : String
  cpp11 : Cpp11Env
  feat : FeatEnv

/-- Host environment of the probe and of the prerequisite checks:
`shutil.which` presence per command name, per-candidate probe data, and
whether `cargo --version` exits 0 (it is run with `check=True`). -/
structure Env where
  which : String → Bool
  cand : String → CandData
  cargoVersionOk : Bool

/-- The result dictionary of `check_cpp_compiler` (setup.py lines 158-166). -/
structure CompilerResult where
  found : Bool
  name : String
  version : String
  command : String
  type : String
  cpp11_support : Bool
  warnings : List String
deriving DecidableEq, Repr

/-- The initial value of the result dictionary in `check_cpp_compiler`:
everything empty or false. -/
def emptyCompilerResult : CompilerResult :=
  { found := false, name := "", version := "", command := "", type := "",
    cpp11_support := false, warnings := [] }

/-- The value `result.update(...)` stores for a candidate that was probed
without an exception (setup.py lines 186-194). -/
def candResult (env : Env) (c : CompilerInfo) : CompilerResult :=
  { found := true,
    name := c.name,
    version := (env.cand c.cmd).version,
    command := c.cmd,
    type := c.type,
    cpp11_support := (test_cpp11_compilation c.type (env.cand c.cmd).cpp11).1,
    warnings := (test_compiler_features c.type (env.cand c.cmd).feat).1.warnings }

/-- The break condition of the probe loop (setup.py line 197): the baseline
C++11 test passed and the feature tests reported no critical failure. -/
def fullyOk (env : Env) (c : CompilerInfo) : Bool :=
  (test_cpp11_compilation c.type (env.cand c.cmd).cpp11).1
    && (test_compiler_features c.type (env.cand c.cmd).feat).1.critical_failures.isEmpty

/-- The candidate loop of `check_cpp_compiler` (setup.py lines 169-202):
skip absent commands; a raising probe leaves the result unchanged and
continues; otherwise store the candidate result and break when it is fully
capable.  The second component records the commands that were actually
probed, in order. -/
def probeGo (env : Env) : List CompilerInfo → CompilerResult → CompilerResult × List String
  | [], acc => (acc, [])
  | c :: rest, acc =>
    if env.which c.cmd then
      if (env.cand c.cmd).raises then
        ((probeGo env rest acc).1, c.cmd :: (probeGo env rest acc).2)
      else
        if fullyOk env c then (candResult env c, [c.cmd])
        else ((probeGo env rest (candResult env c)).1,
              c.cmd :: (probeGo env rest (candResult env c)).2)
    else probeGo env rest acc

/-- Embedding of `check_cpp_compiler` (setup.py lines 132-204): the final
result dictionary. -/
def check_cpp_compiler (env : Env) : CompilerResult :=
  (probeGo env compilers_to_test emptyCompilerResult).1

/-- The ordered list of candidate commands the probe actually attempted. -/
def check_cpp_compiler_probed (env : Env) : List String :=
  (probeGo env compilers_to_test emptyCompilerResult).2

/-- Spec-side predicate: the candidate is present, its probe does not raise,
and it is fully capable. -/
def okB (env : Env) (c : CompilerInfo) : Bool :=
  env.which c.cmd && !(env.cand c.cmd).raises && fullyOk env c

/-- Spec-side predicate: the candidate is present and its probe completes
without raising, so it produces a (partial) result. -/
def examinedB (env : Env) (c : CompilerInfo) : Bool :=
  env.which c.cmd && !(env.cand c.cmd).raises

/-- Modelled from the spec (section 4.1): return the first fully capable
candidate result; otherwise the partial result of the last candidate whose
probe produced one; otherwise the all-default result with `found = false`. -/
def probeSpecResult (env : Env) : CompilerResult :=
  match compilers_to_test.find? (okB env) with
  | some c => candResult env c
  | none =>
    match (compilers_to_test.filter (examinedB env)).getLast? with
    | some c => candResult env c
    | none => emptyCompilerResult

/-- Modelled from the spec (section 4.1): the probe attempts exactly the
present candidates up to and including the first fully capable one. -/
def probeSpecTrace (env : Env) : List String :=
  ((compilers_to_test.takeWhile (fun c => !okB env c)).filter
      (fun c => env.which c.cmd)).map (fun c => c.cmd)
    ++ (match compilers_to_test.find? (okB env) with
        | some c => [c.cmd]
        | none => [])

/-- The `packaging_commands` list of `is_packaging_command`
(setup.py lines 118-122). -/
def packaging_commands : List String :=
  ["sdist", "bdist", "bdist_wheel", "bdist_egg", "bdist_rpm", "bdist_wininst",
   "build_swig", "egg_info"]

/-- Embedding of `is_packaging_command` (setup.py lines 113-129): any
command-line argument equal to a known packaging command. -/
def is_packaging_command (argv : List String) : Bool :=
  argv.any (fun a => packaging_commands.contains a)

/-- The `missing_tools` list computed by `check_prerequisites`
(setup.py lines 55-107): cargo is missing when absent or when
`cargo --version` fails; swig is checked for presence only when
`check_swig`; the compiler is missing when the probe reports
`found = false`. -/
def missing_tools (env : Env) (check_swig : Bool) : List String :=
  (if !env.which "cargo" then ["cargo"]
   else if !env.cargoVersionOk then ["cargo"] else [])
  ++ (if check_swig && !env.which "swig" then ["swig"] else [])
  ++ (if !(check_cpp_compiler env).found then ["c++_compiler"] else [])

/-- Embedding of `check_prerequisites` (setup.py lines 55-110): when any tool
is missing it prints the remediation block and calls `sys.exit(1)`, modelled
as `Except.error 1` (the `SystemExit` value); otherwise it returns. -/
def check_prerequisites (env : Env) (check_swig : Bool) : Except Nat Unit :=
  if missing_tools env check_swig = [] then .ok () else .error 1

/-- Embedding of `CheckPrereqCommand.run` (setup.py lines 914-927): the
`SystemExit` raised by `check_prerequisites` is caught by the
`except SystemExit: pass` clause, so the command finishes normally and the
process exit status is 0 on both branches. -/
def checkPrereqCommandRun (env : Env) (argv : List String) : Nat :=
  match check_prerequisites env (is_packaging_command argv) with
  | .ok _ => 0
  | .error _ => 0

/-- Embedding of the `--check-prereq` handler under `__main__`
(setup.py lines 1067-1075): runs `check_prerequisites(check_swig=False)`
inside `try/except SystemExit: pass` and then calls `sys.exit(0)`
unconditionally. -/
def mainCheckPrereqFlag (env : Env) : Nat :=
  match check_prerequisites env false with
  | .ok _ => 0
  | .error _ => 0

/-- Embedding of `get_possible_library_names` (setup.py lines 1019-1032),
keyed by the lower-cased `platform.system()` string. -/
def get_possible_library_names (system : String) : List String :=
  if system == "windows" then
    ["signer.lib", "libsigner.a", "libsigner.lib"]
  else
    ["libsigner.a"]

/-- Embedding of `get_static_library_name` (setup.py lines 1035-1046): the
single best-guess name, keyed by platform and by which compiler commands
`shutil.which` finds. -/
def get_static_library_name (system : String) (which : String → Bool) : String :=
  if system == "windows" then
    if which "cl" && !(which "gcc") then "signer.lib" else "libsigner.a"
  else "libsigner.a"

/-- The candidate loop of `CustomBuildExt.find_static_library`
(setup.py lines 780-786): the first candidate that exists under the
build-output directory wins. -/
def findLibLoop (fs : String → Bool) (targetDir srcDir : String) : List String → Option (String × String)
  | [] => none
  | n :: rest =>
    if fs (targetDir ++ "/" ++ n) then some (targetDir ++ "/" ++ n, srcDir ++ "/" ++ n)
    else findLibLoop fs targetDir srcDir rest

/-- Embedding of `CustomBuildExt.find_static_library`
(setup.py lines 775-790): try each platform candidate in order; when none
exists, fall back to the first candidate so the caller fails with a clear
message.  `fs` is file existence; paths are joined with a slash as
`pathlib` does.  (`get_possible_library_names` never returns an empty list,
so `headD` matches the `possible_names[0]` subscript of the source.) -/
def find_static_library (system : String) (fs : String → Bool) (targetDir srcDir : String) : String × String :=
  match findLibLoop fs targetDir srcDir (get_possible_library_names system) with
  | some p => p
  | none =>
    (targetDir ++ "/" ++ (get_possible_library_names system).headD "",
     srcDir ++ "/" ++ (get_possible_library_names system).headD "")

/-- The `required_files` list of `CustomBuildExt.verify_swig_files`
(setup.py lines 697-700): path and description pairs. -/
def requiredSwigFiles : List (String × String) :=
  [("src/signer_wrap.cxx", "SWIG-generated C++ wrapper"),
   ("src/CardanoSigner.py", "SWIG-generated Python module")]

/-- Embedding of `CustomBuildExt.verify_swig_files`
(setup.py lines 695-715): collect the required files that do not exist; when
any is missing, print each one and raise `FileNotFoundError`, modelled as an
error carrying the printed missing list. -/
def verify_swig_files (fs : String → Bool) : Except (List (String × String)) Unit :=
  let missing := requiredSwigFiles.filter (fun p => !fs p.1)
  if missing.isEmpty then .ok () else .error missing

/-- The externally observable steps of the custom build-extension pipeline. -/
inductive BuildAction where
  | checkPrereq
  | rustBuild
  | copyLib
  | copyHeaderLibRs
  | copyHeaderCxx
  | verifySwig
  | generateSwig
  | superBuildExt
deriving DecidableEq, Repr

/-- The failure that aborts the custom build-extension pipeline. -/
inductive BuildFailure where
  | sysExit (code : Nat)
  | calledProcessError (msg : String)
  | fileNotFound (msg : String)
  | swigMissing (files : List (String × String))
deriving DecidableEq, Repr

/-- Host environment of one `CustomBuildExt.run` invocation. -/
structure BuildEnv where
  env : Env
  cargoBuildOk : Bool
  fs : String → Bool
  system : String

/-- Embedding of `CustomBuildExt.run` together with its helpers
`run_rust_build` and `verify_swig_files` (setup.py lines 675-790): check
prerequisites without swig (a `SystemExit` propagates), run `cargo build`,
resolve and copy the static library (a missing resolved library raises
`FileNotFoundError`), copy whichever bridge headers exist, verify the two
pre-generated SWIG files, then delegate to the inherited `build_ext.run`.
Returns the ordered trace of performed actions and the failure that aborted
the run, if any. -/
def customBuildExtRun (b : BuildEnv) : List BuildAction × Option BuildFailure :=
  match check_prerequisites b.env false with
  | .error code => ([.checkPrereq], some (.sysExit code))
  | .ok _ =>
    if !b.cargoBuildOk then
      ([.checkPrereq, .rustBuild], some (.calledProcessError "cargo build failed"))
    else
      let libSrc := (find_static_library b.system b.fs "target/debug" "src").1
      if !b.fs libSrc then
        ([.checkPrereq, .rustBuild], some (.fileNotFound ("Static library not found: " ++ libSrc)))
      else
        let hdrActs :=
          (if b.fs "target/cxxbridge/signer/src/lib.rs.h" then [BuildAction.copyHeaderLibRs] else [])
            ++ (if b.fs "target/cxxbridge/rust/cxx.h" then [BuildAction.copyHeaderCxx] else [])
        let acts := [BuildAction.checkPrereq, .rustBuild, .copyLib] ++ hdrActs ++ [.verifySwig]
        match verify_swig_files b.fs with
        | .error missing => (acts, some (.swigMissing missing))
        | .ok _ => (acts ++ [.superBuildExt], none)

/-- The `expected_files` list of `generate_swig_bindings`
(setup.py line 962). -/
def expectedSwigOutputs : List String := ["src/signer_wrap.cxx", "src/CardanoSigner.py"]

/-- The warning line printed for an expected output that was not generated
(setup.py line 965). -/
def swigWarnMsg (p : String) : String :=
  "Warning: Expected file " ++ p ++ " was not generated"

/-- Environment of one `generate_swig_bindings` call: whether the interface
specification `src/signer.i` exists, the exit code of the `swig` invocation
(`subprocess.check_call` raises on a non-zero code), and which expected
output files exist after the invocation. -/
structure SwigEnv where
  specExists : Bool
  swigRc : Int
  outExists : String → Bool

/-- Embedding of `generate_swig_bindings` (setup.py lines 949-974): a missing
interface file raises `FileNotFoundError` which the handler turns into
`sys.exit(1)`; a non-zero `swig` exit raises `CalledProcessError` which the
handler turns into `sys.exit(1)`; on success each missing expected output
only yields a printed warning.  `Except.error 1` models the exit and
`Except.ok` carries the printed warning lines. -/
def generate_swig_bindings (e : SwigEnv) : Except Nat (List String) :=
  if !e.specExists then .error 1
  else if e.swigRc != 0 then .error 1
  else .ok ((expectedSwigOutputs.filter (fun p => !e.outExists p)).map swigWarnMsg)

/-- Spec-side predicate for claim statements: the header compile subprocess
completed with a non-zero exit code (the only condition that vetoes a
compiler). -/
def headerNonzero (s : Subp) : Bool :=
  match s with
  | .ret rc => rc != 0
  | .timeout => false

/-- Spec-side predicate for claim statements: the foreign-linkage/exception
interop test failed (compile non-zero or timed out, or the compiled program
exited non-zero or timed out). -/
def bridgeFailed (c r : Subp) : Bool :=
  match c with
  | .timeout => true
  | .ret rc =>
    if rc != 0 then true
    else
      match r with
      | .timeout => true
      | .ret rc2 => rc2 != 0

/-- A feature-test environment in which every subprocess succeeds and the
version regex matches nothing. -/
def featAllPass : FeatEnv :=
  { pic := .ret 0, headerCompile := .ret 0, versionProbe := .ret 0,
    versionParse := none, bridgeCompile := .ret 0, bridgeRun := .ret 0,
    threadCompile := .ret 0 }

/-- A feature-test environment equal to `featAllPass` except that the header
compile exits 1. -/
def featHeaderNonzero : FeatEnv := { featAllPass with headerCompile := .ret 1 }

/-- A feature-test environment equal to `featAllPass` except that the header
compile times out. -/
def featHeaderTimeout : FeatEnv := { featAllPass with headerCompile := .timeout }

/-- Default per-candidate probe data: no exception, every test succeeds. -/
def candDefault : CandData :=
  { raises := false, version := "", cpp11 := ⟨.ret 0, .ret 0⟩, feat := featAllPass }

/-- A host with no tool on the path at all. -/
def envNoTools : Env :=
  { which := fun _ => false, cand := fun _ => candDefault, cargoVersionOk := true }

/-- A host where only `g++` and `cargo` are on the path and every probe
succeeds. -/
def envGxx : Env :=
  { which := fun s => s == "g++" || s == "cargo",
    cand := fun _ => { candDefault with version := "g++ (GCC) 11.2.0" },
    cargoVersionOk := true }

/-- A host where only `g++` is on the path and probing it raises an
exception. -/
def envRaising : Env :=
  { which := fun s => s == "g++",
    cand := fun _ => { candDefault with raises := true },
    cargoVersionOk := true }

/-- A build-pipeline environment where prerequisites and the Rust build
succeed, the static library exists, and both pre-generated SWIG files are
absent. -/
def envBuildMissingSwig : BuildEnv :=
  { env := envGxx, cargoBuildOk := true,
    fs := fun p => p == "target/debug/libsigner.a", system := "linux" }

/-- Characterization of the probe loop: the result is the first fully capable
candidate, else the last candidate that produced a partial result, else the
accumulator; the probed commands are the present candidates up to and
including the first fully capable one. -/
theorem probeGo_eq (env : Env) (l : List CompilerInfo) (acc : CompilerResult) :
    probeGo env l acc =
      ((match l.find? (okB env) with
        | some c => candResult env c
        | none =>
          match (l.filter (examinedB env)).getLast? with
          | some c => candResult env c
          | none => acc),
       ((l.takeWhile (fun c => !okB env c)).filter (fun c => env.which c.cmd)).map (fun c => c.cmd)
         ++ (match l.find? (okB env) with | some c => [c.cmd] | none => [])) := by
  induction l generalizing acc with
  | nil => simp [probeGo]
  | cons c rest ih =>
    by_cases hw : env.which c.cmd = true
    · by_cases hr : (env.cand c.cmd).raises = true
      · have hok : okB env c = false := by simp [okB, hr]
        have hex : examinedB env c = false := by simp [examinedB, hr]
        rw [List.find?_cons_of_neg _ (by simp [hok]),
            List.filter_cons_of_neg (p := examinedB env) (by simp [hex]),
            List.takeWhile_cons_of_pos (by simp [hok]),
            List.filter_cons_of_pos (p := fun ci : CompilerInfo => env.which ci.cmd) hw]
        simp only [probeGo, hw, hr, if_true, List.map_cons, List.cons_append]
        rw [ih acc]
      · by_cases hfo : fullyOk env c = true
        · have hok : okB env c = true := by simp [okB, hw, hr, hfo]
          rw [List.find?_cons_of_pos _ hok,
              List.takeWhile_cons_of_neg (by simp [hok])]
          simp [probeGo, hw, hr, hfo]
        · have hok : okB env c = false := by simp [okB, hfo]
          have hex : examinedB env c = true := by simp [examinedB, hw, hr]
          rw [List.find?_cons_of_neg _ (by simp [hok]),
              List.filter_cons_of_pos (p := examinedB env) hex,
              List.takeWhile_cons_of_pos (by simp [hok]),
              List.filter_cons_of_pos (p := fun ci : CompilerInfo => env.which ci.cmd) hw]
          simp only [probeGo, hw, hr, hfo, if_true, if_false, Bool.false_eq_true,
            List.map_cons, List.cons_append]
          rw [ih (candResult env c)]
          cases hf : List.filter (examinedB env) rest with
          | nil => simp [hf]
          | cons b tl =>
            simp only [hf, List.getLast?_cons_cons]
            obtain ⟨x, hx⟩ : ∃ x, (b :: tl).getLast? = some x :=
              Option.isSome_iff_exists.mp (by simp [List.getLast?_isSome])
            cases hfind : List.find? (okB env) rest <;> simp [hx]
    · have hok : okB env c = false := by simp [okB, hw]
      have hex : examinedB env c = false := by simp [examinedB, hw]
      rw [List.find?_cons_of_neg _ (by simp [hok]),
          List.filter_cons_of_neg (p := examinedB env) (by simp [hex]),
          List.takeWhile_cons_of_pos (by simp [hok]),
          List.filter_cons_of_neg (p := fun ci : CompilerInfo => env.which ci.cmd) (by simp [hw])]
      simp only [probeGo, hw, if_false, Bool.false_eq_true]
      rw [ih acc]

/-- Claim C2: for every environment, `check_cpp_compiler` returns the result
of the first candidate present on the path that is fully capable (baseline
C++11 test passes and critical failures empty), stopping at that candidate;
if no candidate is fully capable it returns the partial result of the last
candidate examined (not the first); and if no candidate command is present
it returns the all-default result with found = false.  Stated as equivalence
with the spec-side functions `probeSpecResult` and `probeSpecTrace`. -/
theorem c2_probe_first_capable_else_last_partial (env : Env) :
    check_cpp_compiler env = probeSpecResult env ∧
    check_cpp_compiler_probed env = probeSpecTrace env := by
  have h := probeGo_eq env compilers_to_test emptyCompilerResult
  constructor
  · show (probeGo env compilers_to_test emptyCompilerResult).1 = _
    rw [h]
    rfl
  · show (probeGo env compilers_to_test emptyCompilerResult).2 = _
    rw [h]
    rfl

/-- Claim C10: whenever `check_cpp_compiler` returns found = false (also
when commands are present but every probe raised), every other field keeps
its default: empty name, version, command and type, cpp11_support false and
no warnings. -/
theorem c10_not_found_defaults (env : Env) :
    (check_cpp_compiler env).found = false → check_cpp_compiler env = emptyCompilerResult := by
  intro hf
  have h : check_cpp_compiler env = probeSpecResult env := by
    have := probeGo_eq env compilers_to_test emptyCompilerResult
    show (probeGo env compilers_to_test emptyCompilerResult).1 = _
    rw [this]; rfl
  rw [h] at hf ⊢
  unfold probeSpecResult at hf ⊢
  cases hfind : List.find? (okB env) compilers_to_test with
  | some c => rw [hfind] at hf; simp [candResult] at hf
  | none =>
    rw [hfind] at hf
    simp only at hf ⊢
    cases hgl : (List.filter (examinedB env) compilers_to_test).getLast? with
    | some c => rw [hgl] at hf; simp [candResult] at hf
    | none => rfl

theorem c10_witness : check_cpp_compiler envRaising = emptyCompilerResult :=
  c10_not_found_defaults envRaising (by decide)

/-- Claim C1 counterexample: on a host with no cargo and no compiler, the
missing-tools list is non-empty, yet the `check_prereq` command and the
`--check-prereq` flag handler both finish with process exit status 0, not 1:
both wrap `check_prerequisites` in a handler that swallows the
`SystemExit`. -/
theorem c1_counterexample :
    missing_tools envNoTools false = ["cargo", "c++_compiler"] ∧
    checkPrereqCommandRun envNoTools ["check_prereq"] = 0 ∧
    mainCheckPrereqFlag envNoTools = 0 :=
  ⟨rfl, rfl, rfl⟩

/-- Claim C1 amended: `check_prerequisites` itself exits with status 1
(raising `SystemExit`) exactly when some required tool is missing and
returns normally otherwise; but both check-prerequisites entry points (the
`check_prereq` command and the `--check-prereq` flag) catch the
`SystemExit` and terminate with status 0 regardless of missing tools. -/
theorem c1_amended (env : Env) (argv : List String) :
    (missing_tools env (is_packaging_command argv) ≠ [] →
      check_prerequisites env (is_packaging_command argv) = .error 1) ∧
    (missing_tools env (is_packaging_command argv) = [] →
      check_prerequisites env (is_packaging_command argv) = .ok ()) ∧
    checkPrereqCommandRun env argv = 0 ∧
    mainCheckPrereqFlag env = 0 := by
  refine ⟨?_, ?_, ?_, ?_⟩
  · intro h; simp [check_prerequisites, h]
  · intro h; simp [check_prerequisites, h]
  · unfold checkPrereqCommandRun
    cases check_prerequisites env (is_packaging_command argv) <;> rfl
  · unfold mainCheckPrereqFlag
    cases check_prerequisites env false <;> rfl

theorem c1_witness :
    check_prerequisites envNoTools false = .error 1 ∧
    checkPrereqCommandRun envNoTools [] = 0 :=
  ⟨(c1_amended envNoTools []).1 (by decide), (c1_amended envNoTools []).2.2.1⟩

/-- The critical-failures list of `test_compiler_features` is determined by
the header compile outcome alone: it is the single veto message when the
header compile returned non-zero and empty otherwise. -/
theorem test_compiler_features_crit (ctype : String) (e : FeatEnv) :
    (test_compiler_features ctype e).1.critical_failures =
      if headerNonzero e.headerCompile then ["Cannot compile basic C++ headers"] else [] := by
  show (headerStep ctype e.headerCompile).2.1 = _
  cases e.headerCompile with
  | ret rc => simp only [headerStep, headerNonzero]; split <;> simp
  | timeout => simp [headerStep, headerNonzero]

/-- A non-zero header compile also appends the header warning. -/
theorem headerStep_warn_of_nonzero (ctype : String) (s : Subp)
    (h : headerNonzero s = true) :
    (headerStep ctype s).1 = ["Standard library headers may be missing or incompatible"] := by
  cases s with
  | ret rc => simp only [headerNonzero] at h; simp [headerStep, h]
  | timeout => simp [headerNonzero] at h

/-- A failed bridge test (compile or run non-zero or timed out) always
appends a warning. -/
theorem bridgeStep_warn_of_failed (ctype : String) (c r : Subp)
    (h : bridgeFailed c r = true) :
    (bridgeStep ctype c r).1 ≠ [] := by
  cases c with
  | timeout => simp [bridgeStep]
  | ret rc =>
    by_cases hrc : (rc != 0) = true
    · simp [bridgeStep, hrc]
    · simp only [bridgeFailed, hrc, if_false, Bool.false_eq_true] at h
      cases r with
      | timeout => simp [bridgeStep, hrc]
      | ret rc2 =>
        simp only at h
        simp [bridgeStep, hrc, h]

/-- Claim C4: the criticalFailures list of `test_compiler_features` is
non-empty exactly when the standard-library/header compile returns non-zero,
in which case a warning is also appended; no other check adds critical
failures; in particular a compiler that fails the foreign-linkage/exception
test but passes the header test yields empty criticalFailures and non-empty
warnings. -/
theorem c4_critical_only_from_header (ctype : String) (e : FeatEnv) :
    ((test_compiler_features ctype e).1.critical_failures ≠ [] ↔
      headerNonzero e.headerCompile = true) ∧
    (headerNonzero e.headerCompile = true →
      "Standard library headers may be missing or incompatible" ∈
        (test_compiler_features ctype e).1.warnings) ∧
    (e.headerCompile = .ret 0 → bridgeFailed e.bridgeCompile e.bridgeRun = true →
      (test_compiler_features ctype e).1.critical_failures = [] ∧
      (test_compiler_features ctype e).1.warnings ≠ []) := by
  refine ⟨?_, ?_, ?_⟩
  · rw [test_compiler_features_crit]
    by_cases h : headerNonzero e.headerCompile = true <;> simp [h]
  · intro h
    have hw := headerStep_warn_of_nonzero ctype e.headerCompile h
    show _ ∈ picStep ctype e.pic ++ (headerStep ctype e.headerCompile).1 ++ _ ++ _ ++ _
    simp [hw]
  · intro h0 hbf
    constructor
    · rw [test_compiler_features_crit, h0]
      simp [headerNonzero]
    · have hb := bridgeStep_warn_of_failed ctype e.bridgeCompile e.bridgeRun hbf
      show picStep ctype e.pic ++ (headerStep ctype e.headerCompile).1 ++ _ ++
        (bridgeStep ctype e.bridgeCompile e.bridgeRun).1 ++ (threadStep ctype e.threadCompile).1 ≠ []
      intro hcontra
      rw [List.append_eq_nil, List.append_eq_nil, List.append_eq_nil, List.append_eq_nil] at hcontra
      exact hb hcontra.1.2

theorem c4_witness :
    (test_compiler_features "gcc" { featAllPass with bridgeCompile := .ret 1 }).1.critical_failures = [] ∧
    (test_compiler_features "gcc" { featAllPass with bridgeCompile := .ret 1 }).1.warnings ≠ [] :=
  (c4_critical_only_from_header "gcc" { featAllPass with bridgeCompile := .ret 1 }).2.2 rfl (by decide)

/-- Claim C3 counterexample: two feature-test environments identical except
that the header compile exits 1 in one and times out in the other receive
different classifications: the non-zero exit is a critical failure, the
timeout is not, so a timeout is not treated identically to a non-zero exit
status for the standard-library/header test. -/
theorem c3_counterexample :
    featHeaderNonzero = { featAllPass with headerCompile := .ret 1 } ∧
    featHeaderTimeout = { featHeaderNonzero with headerCompile := .timeout } ∧
    (test_compiler_features "gcc" featHeaderNonzero).1.critical_failures =
      ["Cannot compile basic C++ headers"] ∧
    (test_compiler_features "gcc" featHeaderTimeout).1.critical_failures = [] :=
  ⟨rfl, rfl, rfl, rfl⟩

/-- Claim C3 amended: a timeout is treated identically to a non-zero exit
for the baseline C++11 test (both make it fail); for the PIC, foreign
linkage and threading tests both outcomes yield a warning and never a
critical failure (with different warning text on timeout); but for the
standard-library/header test they differ: a non-zero exit adds a critical
failure while a timeout adds only a warning. -/
theorem c3_amended (ctype : String) (e : FeatEnv) (rc : Int) (r : Subp) (hrc : rc ≠ 0) :
    ((test_cpp11_compilation ctype ⟨.ret rc, r⟩).1 = false ∧
     (test_cpp11_compilation ctype ⟨.timeout, r⟩).1 = false ∧
     (test_cpp11_compilation ctype ⟨.ret 0, .ret rc⟩).1 = false ∧
     (test_cpp11_compilation ctype ⟨.ret 0, .timeout⟩).1 = false) ∧
    ((test_compiler_features ctype { e with headerCompile := .ret rc }).1.critical_failures =
        ["Cannot compile basic C++ headers"] ∧
     (test_compiler_features ctype { e with headerCompile := .timeout }).1.critical_failures = []) ∧
    ((ctype = "gcc" ∨ ctype = "clang") →
      picStep ctype (.ret rc) ≠ [] ∧ picStep ctype .timeout ≠ []) ∧
    ((bridgeStep ctype (.ret rc) r).1 ≠ [] ∧ (bridgeStep ctype .timeout r).1 ≠ [] ∧
     (bridgeStep ctype (.ret 0) (.ret rc)).1 ≠ [] ∧ (bridgeStep ctype (.ret 0) .timeout).1 ≠ []) ∧
    ((ctype = "gcc" ∨ ctype = "clang") →
      (threadStep ctype (.ret rc)).1 ≠ [] ∧ (threadStep ctype .timeout).1 ≠ []) := by
  have hb : (rc != 0) = true := by simpa using hrc
  have he : (rc == 0) = false := by simpa using hrc
  refine ⟨⟨?_, rfl, ?_, rfl⟩, ⟨?_, ?_⟩, ?_, ⟨?_, ?_, ?_, ?_⟩, ?_⟩
  · simp [test_cpp11_compilation, he]
  · simp [test_cpp11_compilation, he]
  · rw [test_compiler_features_crit]
    simp [headerNonzero, hb]
  · rw [test_compiler_features_crit]
    simp [headerNonzero]
  · rintro (h | h) <;> subst h <;> simp [picStep, hb]
  · simp [bridgeStep, hb]
  · simp [bridgeStep]
  · simp [bridgeStep, hb]
  · simp [bridgeStep]
  · rintro (h | h) <;> subst h <;> simp [threadStep, hb]

theorem c3_witness :
    (test_cpp11_compilation "gcc" ⟨.ret 1, .ret 0⟩).1 = false ∧
    (test_compiler_features "gcc" { featAllPass with headerCompile := .timeout }).1.critical_failures = [] :=
  ⟨(c3_amended "gcc" featAllPass 1 (.ret 0) (by decide)).1.1,
   ((c3_amended "gcc" featAllPass 1 (.ret 0) (by decide)).2.1).2⟩

/-- The header block always creates and unlinks its temp source file. -/
theorem headerStep_mem (ctype : String) (s : Subp) :
    FsEv.create headerSourceFile ∈ (headerStep ctype s).2.2 ∧
    FsEv.unlink headerSourceFile ∈ (headerStep ctype s).2.2 := by
  cases s with
  | ret rc => simp only [headerStep]; split <;> simp
  | timeout => simp [headerStep]

/-- The bridge block always creates and unlinks its temp source file. -/
theorem bridgeStep_mem (ctype : String) (c r : Subp) :
    FsEv.create bridgeSourceFile ∈ (bridgeStep ctype c r).2 ∧
    FsEv.unlink bridgeSourceFile ∈ (bridgeStep ctype c r).2 := by
  cases c with
  | ret rc =>
    simp only [bridgeStep]
    split
    · simp
    · cases r <;> simp
  | timeout => simp [bridgeStep]

/-- The threading block (gcc/clang families) always creates and unlinks its
temp source file. -/
theorem threadStep_mem (ctype : String) (s : Subp)
    (h : ctype = "gcc" ∨ ctype = "clang") :
    FsEv.create threadSourceFile ∈ (threadStep ctype s).2 ∧
    FsEv.unlink threadSourceFile ∈ (threadStep ctype s).2 := by
  rcases h with h | h <;> subst h <;>
    (cases s with
     | ret rc =>
        rcases Bool.eq_false_or_eq_true (rc != 0) with hrc | hrc <;> simp [threadStep, hrc]
     | timeout => simp [threadStep])

/-- Claim C9: for every capability test and every exit path (every
environment outcome, including compile and run timeouts), the temporary
source file created for the synthetic test program is unlinked before the
test returns: the event trace always contains the matching unlink. -/
theorem c9_temp_source_cleanup (ctype : String) (e : Cpp11Env) (f : FeatEnv) :
    (FsEv.create cpp11SourceFile ∈ (test_cpp11_compilation ctype e).2 ∧
     FsEv.unlink cpp11SourceFile ∈ (test_cpp11_compilation ctype e).2) ∧
    (FsEv.create headerSourceFile ∈ (test_compiler_features ctype f).2 ∧
     FsEv.unlink headerSourceFile ∈ (test_compiler_features ctype f).2) ∧
    (FsEv.create bridgeSourceFile ∈ (test_compiler_features ctype f).2 ∧
     FsEv.unlink bridgeSourceFile ∈ (test_compiler_features ctype f).2) ∧
    ((ctype = "gcc" ∨ ctype = "clang") →
      FsEv.create threadSourceFile ∈ (test_compiler_features ctype f).2 ∧
      FsEv.unlink threadSourceFile ∈ (test_compiler_features ctype f).2) := by
  refine ⟨?_, ?_, ?_, ?_⟩
  · cases hc : e.compile with
    | ret rc =>
      simp only [test_cpp11_compilation, hc]
      split
      · cases e.run <;> simp
      · simp
    | timeout => simp [test_cpp11_compilation, hc]
  · have h := headerStep_mem ctype f.headerCompile
    show _ ∈ (headerStep ctype f.headerCompile).2.2 ++ _ ++ _ ∧
      _ ∈ (headerStep ctype f.headerCompile).2.2 ++ _ ++ _
    simp only [List.append_assoc, List.mem_append]
    exact ⟨Or.inl h.1, Or.inl h.2⟩
  · have h := bridgeStep_mem ctype f.bridgeCompile f.bridgeRun
    show _ ∈ _ ++ (bridgeStep ctype f.bridgeCompile f.bridgeRun).2 ++ _ ∧
      _ ∈ _ ++ (bridgeStep ctype f.bridgeCompile f.bridgeRun).2 ++ _
    simp only [List.append_assoc, List.mem_append]
    exact ⟨Or.inr (Or.inl h.1), Or.inr (Or.inl h.2)⟩
  · intro hgc
    have h := threadStep_mem ctype f.threadCompile hgc
    show _ ∈ _ ++ _ ++ (threadStep ctype f.threadCompile).2 ∧
      _ ∈ _ ++ _ ++ (threadStep ctype f.threadCompile).2
    simp only [List.append_assoc, List.mem_append]
    exact ⟨Or.inr (Or.inr h.1), Or.inr (Or.inr h.2)⟩

theorem c9_witness :
    FsEv.create threadSourceFile ∈ (test_compiler_features "gcc" featAllPass).2 ∧
    FsEv.unlink threadSourceFile ∈ (test_compiler_features "gcc" featAllPass).2 :=
  (c9_temp_source_cleanup "gcc" ⟨.ret 0, .ret 0⟩ featAllPass).2.2.2 (Or.inl rfl)

/-- Claim C5: the candidate library-name list is non-empty on every
platform; a single-element list on every non-Windows platform; and on
Windows its first element is the MSVC-convention name (the name
`get_static_library_name` picks in a pure-MSVC environment) followed by two
names carrying the MinGW `lib` name prefix. -/
theorem c5_candidate_lists (system : String) :
    get_possible_library_names system ≠ [] ∧
    (system ≠ "windows" → (get_possible_library_names system).length = 1) ∧
    (system = "windows" →
      (get_possible_library_names system).head? =
        some (get_static_library_name "windows" (fun s => s == "cl")) ∧
      (get_possible_library_names system).tail.length = 2 ∧
      ∀ n ∈ (get_possible_library_names system).tail, n.toList.take 3 = "lib".toList) := by
  by_cases h : system = "windows"
  · subst h
    refine ⟨by simp [get_possible_library_names], by simp, fun _ => ⟨?_, ?_, ?_⟩⟩
    · simp [get_possible_library_names, get_static_library_name]
    · simp [get_possible_library_names]
    · simp only [get_possible_library_names]
      decide
  · have hb : (system == "windows") = false := by simp [h]
    refine ⟨?_, fun _ => ?_, fun hw => absurd hw h⟩
    · simp [get_possible_library_names, hb]
    · simp [get_possible_library_names, hb]

theorem c5_witness :
    (get_possible_library_names "linux").length = 1 ∧
    (get_possible_library_names "windows").head? =
      some (get_static_library_name "windows" (fun s => s == "cl")) :=
  ⟨(c5_candidate_lists "linux").2.1 (by decide),
   ((c5_candidate_lists "windows").2.2 rfl).1⟩

/-- The candidate loop of `find_static_library` returns the first candidate
whose joined path exists, as a find-first search. -/
theorem findLibLoop_eq_find (fs : String → Bool) (t s : String) (l : List String) :
    findLibLoop fs t s l =
      (l.find? (fun n => fs (t ++ "/" ++ n))).map (fun n => (t ++ "/" ++ n, s ++ "/" ++ n)) := by
  induction l with
  | nil => rfl
  | cons n rest ih =>
    by_cases h : fs (t ++ "/" ++ n) = true
    · rw [findLibLoop, if_pos h,
          List.find?_cons_of_pos (p := fun m => fs (t ++ "/" ++ m)) _ h]
      rfl
    · rw [findLibLoop, if_neg h,
          List.find?_cons_of_neg (p := fun m => fs (t ++ "/" ++ m)) _ h, ih]

/-- Claim C6: `find_static_library` returns the first candidate name, in
list order, that exists on disk under the build-output directory; when no
candidate exists it still returns a pair, namely the first candidate joined
with the build-output directory, so the later copy step can fail with a
clear message. -/
theorem c6_find_static_library (system : String) (fs : String → Bool) (t s : String) :
    (∀ n, (get_possible_library_names system).find? (fun m => fs (t ++ "/" ++ m)) = some n →
      find_static_library system fs t s = (t ++ "/" ++ n, s ++ "/" ++ n)) ∧
    ((get_possible_library_names system).find? (fun m => fs (t ++ "/" ++ m)) = none →
      find_static_library system fs t s =
        (t ++ "/" ++ (get_possible_library_names system).headD "",
         s ++ "/" ++ (get_possible_library_names system).headD "")) := by
  constructor
  · intro n hn
    unfold find_static_library
    rw [findLibLoop_eq_find, hn]
    rfl
  · intro hn
    unfold find_static_library
    rw [findLibLoop_eq_find, hn]
    rfl

theorem c6_witness :
    find_static_library "linux" (fun p => p == "target/debug/libsigner.a") "target/debug" "src" =
      ("target/debug/libsigner.a", "src/libsigner.a") :=
  (c6_find_static_library "linux" (fun p => p == "target/debug/libsigner.a")
    "target/debug" "src").1 "libsigner.a" (by decide)

/-- Claim C7: in install mode the build-extension pipeline never performs a
binding-generation action; when the pipeline reaches the verification stage
and a pre-generated SWIG file is missing, the run aborts with a failure
carrying exactly the missing files (each is named), and the final build step
never executes. -/
theorem c7_install_mode_no_generation (b : BuildEnv) :
    BuildAction.generateSwig ∉ (customBuildExtRun b).1 ∧
    (∀ m, BuildAction.verifySwig ∈ (customBuildExtRun b).1 →
      verify_swig_files b.fs = .error m →
      (customBuildExtRun b).2 = some (.swigMissing m) ∧
      BuildAction.superBuildExt ∉ (customBuildExtRun b).1) ∧
    (∀ m, verify_swig_files b.fs = .error m →
      m = requiredSwigFiles.filter (fun p => !b.fs p.1)) := by
  refine ⟨?_, ?_, ?_⟩
  · unfold customBuildExtRun
    cases check_prerequisites b.env false with
    | error code => simp
    | ok u =>
      simp only
      by_cases hc : b.cargoBuildOk <;> simp only [hc, Bool.not_true, Bool.not_false]
      · by_cases hl : b.fs (find_static_library b.system b.fs "target/debug" "src").1 <;>
          simp only [hl, Bool.not_true, Bool.not_false]
        · cases verify_swig_files b.fs <;>
            simp only [if_true, if_false] <;>
            by_cases h1 : b.fs "target/cxxbridge/signer/src/lib.rs.h" <;>
            by_cases h2 : b.fs "target/cxxbridge/rust/cxx.h" <;>
            simp [h1, h2]
        · simp
      · simp
  · intro m hmem hver
    cases hpre : check_prerequisites b.env false with
    | error code => simp [customBuildExtRun, hpre] at hmem
    | ok u =>
      by_cases hc : b.cargoBuildOk
      · by_cases hl : b.fs (find_static_library b.system b.fs "target/debug" "src").1
        · refine ⟨?_, ?_⟩
          · simp [customBuildExtRun, hpre, hc, hl, hver]
          · by_cases h1 : b.fs "target/cxxbridge/signer/src/lib.rs.h" <;>
            by_cases h2 : b.fs "target/cxxbridge/rust/cxx.h" <;>
            simp [customBuildExtRun, hpre, hc, hl, hver, h1, h2]
        · simp [customBuildExtRun, hpre, hc, hl] at hmem
      · simp [customBuildExtRun, hpre, hc] at hmem
  · intro m hver
    unfold verify_swig_files at hver
    by_cases h : (requiredSwigFiles.filter (fun p => !b.fs p.1)).isEmpty <;>
      simp [h] at hver
    exact hver.symm

theorem c7_witness :
    (customBuildExtRun envBuildMissingSwig).2 =
      some (.swigMissing requiredSwigFiles) ∧
    BuildAction.superBuildExt ∉ (customBuildExtRun envBuildMissingSwig).1 :=
  (c7_install_mode_no_generation envBuildMissingSwig).2.1 requiredSwigFiles
    (by decide) (by rfl)

/-- Claim C8: `generate_swig_bindings` exits with status 1 when the
interface specification file is absent and when the generator exits
non-zero; when the generator succeeds the call returns normally even if
expected outputs are missing, and it prints a warning line exactly for each
missing expected output. -/
theorem c8_generate_swig_bindings (e : SwigEnv) :
    (e.specExists = false → generate_swig_bindings e = .error 1) ∧
    (e.specExists = true → e.swigRc ≠ 0 → generate_swig_bindings e = .error 1) ∧
    (e.specExists = true → e.swigRc = 0 → (generate_swig_bindings e).isOk = true) ∧
    (∀ ws, generate_swig_bindings e = .ok ws →
      ∀ p ∈ expectedSwigOutputs, (e.outExists p = false ↔ swigWarnMsg p ∈ ws)) := by
  refine ⟨?_, ?_, ?_, ?_⟩
  · intro h; simp [generate_swig_bindings, h]
  · intro h hrc
    have hb : (e.swigRc != 0) = true := by simpa using hrc
    simp [generate_swig_bindings, h, hb]
  · intro h hrc
    simp [generate_swig_bindings, h, hrc, Except.isOk, Except.toBool]
  · intro ws hws p hp
    unfold generate_swig_bindings at hws
    by_cases h : e.specExists = true
    · by_cases hrc : (e.swigRc != 0) = true
      · simp [h, hrc] at hws
      · simp only [h, hrc, Bool.not_true, if_false, if_true, Bool.not_false] at hws
        have hws2 : ws = (expectedSwigOutputs.filter (fun q => !e.outExists q)).map swigWarnMsg := by
          cases hws; rfl
        subst hws2
        fin_cases hp <;>
          (constructor
           · intro hne
             refine List.mem_map_of_mem _ (List.mem_filter.mpr ⟨?_, by simp [hne]⟩)
             simp [expectedSwigOutputs]
           · intro hmem
             rcases List.mem_map.mp hmem with ⟨q, hq, hqe⟩
             have hq2 := List.mem_filter.mp hq
             rcases hq2 with ⟨hq3, hq4⟩
             fin_cases hq3 <;> simp_all [swigWarnMsg])
    · simp [eq_false_of_ne_true h] at hws

theorem c8_witness :
    (generate_swig_bindings ⟨true, 0, fun _ => false⟩).isOk = true :=
  (c8_generate_swig_bindings ⟨true, 0, fun _ => false⟩).2.2.1 rfl rfl

/-- Witness for claim C2 at a concrete host environment. -/
theorem c2_witness :
    check_cpp_compiler envGxx = probeSpecResult envGxx ∧
    check_cpp_compiler_probed envGxx = probeSpecTrace envGxx :=
  c2_probe_first_capable_else_last_partial envGxx
